import Mathlib

/-!
Shallow embedding of `src/modules/ssft_iosched/sstf-iosched.c`, an SSTF
(shortest-seek-time-first) I/O scheduler for Linux 4.13.

Modelling choices:
* `sector_t` is `u64`; its values are natural numbers reduced modulo `2 ^ 64`
  wherever the C performs 64-bit arithmetic or stores into a `sector_t` field.
* A `struct request` is modelled as an opaque handle `Request` carrying its
  sector position (`blk_rq_pos`) plus an identity tag, since the scheduler
  treats requests purely as handles tagged with a position.
* The kernel `abs()` macro applied to a `u64` converts the operand to
  `signed long long` and negates if negative (the kernel builds with
  wrap-around signed arithmetic), so `abs(x)` on a 64-bit value `x` is
  `x` when `x < 2 ^ 63` and `2 ^ 64 - x` otherwise.
* `list_del_init` removes one designated node from the intrusive list; on the
  Lean side this is `List.erase` of the handle.
* `BUG_ON` (a fatal, non-returning kernel assertion) is modelled by returning
  `none` from `sstf_exit_queue`; `some ()` models passing the assertion and
  freeing the state.
* The two fallible allocations in `sstf_init_queue` (`elevator_alloc`,
  `kmalloc_node`) are modelled by two boolean success flags; `-ENOMEM` is the
  error result the C function returns on either failure.
-/

/-- Size of the `sector_t` value space: `2 ^ 64`. -/
def SECTOR_MOD : Nat := 2 ^ 64

/-- The all-ones 64-bit value `(sector_t)-1`, used by `sstf_find_next_request`
as its "minimum distance undefined" sentinel. -/
def SENTINEL : Nat := 2 ^ 64 - 1

/-- A pending request handle: `id` is the identity of the underlying
`struct request` object, `pos` is `blk_rq_pos(rq)` (a `sector_t`). -/
structure Request where
  id : Nat
  pos : Nat
deriving DecidableEq, Repr

/-- `struct sstf_data`: the scheduler state, an ordered queue of pending
request handles plus the last dispatched head position. -/
structure sstf_data where
  queue : List Request
  head_position : Nat
deriving DecidableEq, Repr

/-- 64-bit unsigned subtraction `a - b` as in `blk_rq_pos(rq) - nd->head_position`:
wrap-around difference modulo `2 ^ 64`. -/
def sector_sub (a b : Nat) : Nat :=
  (SECTOR_MOD + a % SECTOR_MOD - b % SECTOR_MOD) % SECTOR_MOD

/-- The kernel `abs()` macro applied to a `u64` operand: the operand is viewed
as a `signed long long` and negated when negative, then stored back into a
`sector_t`. -/
def kernel_abs (x : Nat) : Nat :=
  if x % SECTOR_MOD < 2 ^ 63 then x % SECTOR_MOD else SECTOR_MOD - x % SECTOR_MOD

/-- `sector_t distance = abs(blk_rq_pos(rq) - nd->head_position);` -/
def sstf_distance (pos head : Nat) : Nat :=
  kernel_abs (sector_sub pos head)

/-- The `list_for_each_entry` loop of `sstf_find_next_request`, carrying the
running `min_distance` and `next_rq` accumulators. The C condition is
`min_distance == -1 || distance < min_distance`. -/
def sstf_find_loop (head : Nat) : List Request → Nat → Option Request → Option Request
  | [], _, next_rq => next_rq
  | rq :: rest, min_distance, next_rq =>
    let distance := sstf_distance rq.pos head
    if min_distance = SENTINEL ∨ distance < min_distance then
      sstf_find_loop head rest distance (some rq)
    else
      sstf_find_loop head rest min_distance next_rq

/-- `sstf_find_next_request`: scan the whole queue for the pending request of
minimum computed distance from the current head position. -/
def sstf_find_next_request (nd : sstf_data) : Option Request :=
  sstf_find_loop nd.head_position nd.queue SENTINEL none

/-- Result of `sstf_dispatch`: the C `int` return value (1 dispatched,
0 nothing to do), the handle passed to `elv_dispatch_sort` (the dispatch
sink), and the scheduler state after the call. -/
structure DispatchResult where
  ret : Nat
  dispatched : Option Request
  state : sstf_data
deriving DecidableEq, Repr

/-- `sstf_dispatch`: find the nearest request; if there is one, unlink it from
the queue, hand it to the dispatch sink, set `head_position` to its position
and return 1; otherwise return 0. -/
def sstf_dispatch (nd : sstf_data) : DispatchResult :=
  match sstf_find_next_request nd with
  | some rq =>
    { ret := 1
      dispatched := some rq
      state := { queue := nd.queue.erase rq, head_position := rq.pos } }
  | none => { ret := 0, dispatched := none, state := nd }

/-- `sstf_add_request`: `list_add_tail` appends the handle at the queue tail. -/
def sstf_add_request (nd : sstf_data) (rq : Request) : sstf_data :=
  { nd with queue := nd.queue ++ [rq] }

/-- `sstf_merged_requests`: `list_del_init(&next->queuelist)` unlinks only the
absorbed request `next`; the surviving request `rq` and `head_position` are
untouched. -/
def sstf_merged_requests (nd : sstf_data) (_rq next : Request) : sstf_data :=
  { nd with queue := nd.queue.erase next }

/-- The `-ENOMEM` error magnitude. -/
def ENOMEM : Int := 12

/-- `sstf_init_queue`: allocate the elevator queue and the `sstf_data`; on
either allocation failure return `-ENOMEM` (after releasing the partial
allocation), otherwise install a state with an empty queue and
`head_position = 0`. -/
def sstf_init_queue (eq_alloc_ok nd_alloc_ok : Bool) : Except Int sstf_data :=
  if !eq_alloc_ok then Except.error (-ENOMEM)
  else if !nd_alloc_ok then Except.error (-ENOMEM)
  else Except.ok { queue := [], head_position := 0 }

/-- `sstf_exit_queue`: `BUG_ON(!list_empty(&nd->queue))` then `kfree(nd)`.
`none` models the fatal assertion firing; `some ()` models passing the
assertion and freeing the state. -/
def sstf_exit_queue (nd : sstf_data) : Option Unit :=
  if nd.queue = [] then some () else none

/-- Specification-side absolute difference of two natural positions. -/
def abs_diff (a b : Nat) : Nat := max a b - min a b

/-- Specification-side description of the scan result: the first queue entry
attaining the minimum computed distance. `pick o d r` resolves a head entry
`r` at distance `d` against the best entry `o` of the rest of the queue,
preferring `r` on ties. -/
def pick (head : Nat) (o : Option Request) (d : Nat) (r : Request) : Option Request :=
  match o with
  | none => some r
  | some m => if sstf_distance m.pos head < d then some m else some r

/-- The first entry of the list attaining the minimum computed distance from
`head`, or `none` for the empty list. -/
def first_min (head : Nat) : List Request → Option Request
  | [] => none
  | rq :: rest => pick head (first_min head rest) (sstf_distance rq.pos head) rq

lemma SECTOR_MOD_pos : 0 < SECTOR_MOD := by norm_num [SECTOR_MOD]

lemma SECTOR_MOD_split : SECTOR_MOD = 2 ^ 63 + 2 ^ 63 := by norm_num [SECTOR_MOD]

/-- Every computed distance is at most `2 ^ 63`. -/
lemma kernel_abs_le (x : Nat) : kernel_abs x ≤ 2 ^ 63 := by
  have hM := SECTOR_MOD_split
  have hx : x % SECTOR_MOD < SECTOR_MOD := Nat.mod_lt x SECTOR_MOD_pos
  unfold kernel_abs
  split
  · exact Nat.le_of_lt (by assumption)
  · omega

lemma sstf_distance_le (p h : Nat) : sstf_distance p h ≤ 2 ^ 63 :=
  kernel_abs_le _

/-- No computed distance collides with the sentinel `(sector_t)-1`. -/
lemma sstf_distance_ne_sentinel (p h : Nat) : sstf_distance p h ≠ SENTINEL := by
  have h1 := sstf_distance_le p h
  have h2 : (2 : Nat) ^ 63 < SENTINEL := by norm_num [SENTINEL]
  exact Nat.ne_of_lt (lt_of_le_of_lt h1 h2)

lemma pick_none (head d : Nat) (r : Request) : pick head none d r = some r := rfl

lemma pick_some (head d : Nat) (m r : Request) :
    pick head (some m) d r =
      if sstf_distance m.pos head < d then some m else some r := rfl

/-- Loop invariant: once a candidate has been recorded (so `min_distance` is a
real distance, not the sentinel), the remainder of the scan replaces it exactly
when the rest of the list holds a strictly closer entry. -/
lemma find_loop_eq (head : Nat) (l : List Request) :
    ∀ (d : Nat) (r : Request), d ≠ SENTINEL →
      sstf_find_loop head l d (some r) = pick head (first_min head l) d r := by
  induction l with
  | nil => intro d r _; rfl
  | cons rq rest ih =>
    intro d r hd
    have hne : sstf_distance rq.pos head ≠ SENTINEL := sstf_distance_ne_sentinel _ _
    simp only [sstf_find_loop]
    by_cases hlt : sstf_distance rq.pos head < d
    · rw [if_pos (Or.inr hlt), ih _ _ hne]
      cases hfm : first_min head rest with
      | none =>
        simp only [first_min, hfm, pick_none, pick_some, if_pos hlt]
      | some m =>
        simp only [first_min, hfm, pick_some]
        by_cases hm : sstf_distance m.pos head < sstf_distance rq.pos head
        · rw [if_pos hm, pick_some, if_pos (lt_trans hm hlt)]
        · rw [if_neg hm, pick_some, if_pos hlt]
    · have hcond : ¬ (d = SENTINEL ∨ sstf_distance rq.pos head < d) := by
        intro hc; rcases hc with hc | hc
        · exact hd hc
        · exact hlt hc
      rw [if_neg hcond, ih _ _ hd]
      cases hfm : first_min head rest with
      | none =>
        simp only [first_min, hfm, pick_none, pick_some, if_neg hlt]
      | some m =>
        simp only [first_min, hfm, pick_some]
        by_cases hm : sstf_distance m.pos head < sstf_distance rq.pos head
        · rw [if_pos hm, pick_some]
        · have hmd : ¬ sstf_distance m.pos head < d := by omega
          rw [if_neg hm, pick_some, if_neg hlt, if_neg hmd]

/-- The scan of `sstf_find_next_request` returns exactly the first queue entry
attaining the minimum computed distance. -/
lemma find_eq_first_min (nd : sstf_data) :
    sstf_find_next_request nd = first_min nd.head_position nd.queue := by
  unfold sstf_find_next_request
  cases hq : nd.queue with
  | nil => rfl
  | cons rq rest =>
    simp only [sstf_find_loop]
    rw [if_pos (Or.inl trivial),
      find_loop_eq _ _ _ _ (sstf_distance_ne_sentinel rq.pos nd.head_position)]
    rfl

lemma first_min_eq_none_iff (head : Nat) (l : List Request) :
    first_min head l = none ↔ l = [] := by
  cases l with
  | nil => simp [first_min]
  | cons rq rest =>
    simp only [first_min]
    cases hfm : first_min head rest with
    | none => simp [pick_none]
    | some m =>
      rw [pick_some]
      constructor
      · intro h; split at h <;> simp_all
      · intro h; simp at h

lemma first_min_mem (head : Nat) (l : List Request) (r : Request)
    (h : first_min head l = some r) : r ∈ l := by
  induction l generalizing r with
  | nil => simp [first_min] at h
  | cons rq rest ih =>
    simp only [first_min] at h
    cases hfm : first_min head rest with
    | none =>
      rw [hfm, pick_none] at h
      simp_all
    | some m =>
      rw [hfm, pick_some] at h
      split at h
      · have := ih m hfm
        simp_all
      · simp_all

lemma first_min_le (head : Nat) (l : List Request) (r : Request)
    (h : first_min head l = some r) :
    ∀ x ∈ l, sstf_distance r.pos head ≤ sstf_distance x.pos head := by
  induction l generalizing r with
  | nil => simp [first_min] at h
  | cons rq rest ih =>
    intro x hx
    simp only [first_min] at h
    cases hfm : first_min head rest with
    | none =>
      rw [hfm, pick_none] at h
      have hrest : rest = [] := (first_min_eq_none_iff head rest).mp hfm
      rcases List.mem_cons.mp hx with hx | hx
      · simp_all
      · rw [hrest] at hx; simp at hx
    | some m =>
      rw [hfm, pick_some] at h
      rcases List.mem_cons.mp hx with hx | hx
      · subst hx
        split at h
        · cases h; omega
        · cases h; exact le_rfl
      · split at h
        · cases h; exact ih r hfm x hx
        · cases h
          have h1 := ih m hfm x hx
          omega

/-- First-wins tie-break: if everything before `r` in the queue is strictly
farther and everything after it is at least as far, the scan returns `r`. -/
lemma first_min_first (head : Nat) (l₁ l₂ : List Request) (r : Request)
    (h₁ : ∀ x ∈ l₁, sstf_distance r.pos head < sstf_distance x.pos head)
    (h₂ : ∀ x ∈ l₂, sstf_distance r.pos head ≤ sstf_distance x.pos head) :
    first_min head (l₁ ++ r :: l₂) = some r := by
  induction l₁ with
  | nil =>
    simp only [List.nil_append, first_min]
    cases hfm : first_min head l₂ with
    | none => rfl
    | some m =>
      have hm := first_min_mem head l₂ m hfm
      rw [pick_some, if_neg (not_lt.mpr (h₂ m hm))]
  | cons x l₁ ih =>
    simp only [List.cons_append, first_min, List.append_eq]
    rw [ih (fun y hy => h₁ y (List.mem_cons_of_mem _ hy)), pick_some,
      if_pos (h₁ x (List.mem_cons_self _ _))]

lemma sector_sub_of_le (a b : Nat) (ha : a < SECTOR_MOD) (hb : b < SECTOR_MOD)
    (h : b ≤ a) : sector_sub a b = a - b := by
  have hM := SECTOR_MOD_pos
  unfold sector_sub
  rw [Nat.mod_eq_of_lt ha, Nat.mod_eq_of_lt hb]
  have h1 : SECTOR_MOD + a - b = (a - b) + SECTOR_MOD := by omega
  rw [h1, Nat.add_mod_right, Nat.mod_eq_of_lt (by omega)]

lemma sector_sub_of_lt (a b : Nat) (ha : a < SECTOR_MOD) (hb : b < SECTOR_MOD)
    (h : a < b) : sector_sub a b = SECTOR_MOD - (b - a) := by
  have hM := SECTOR_MOD_pos
  unfold sector_sub
  rw [Nat.mod_eq_of_lt ha, Nat.mod_eq_of_lt hb]
  have h1 : SECTOR_MOD + a - b = SECTOR_MOD - (b - a) := by omega
  rw [h1, Nat.mod_eq_of_lt (by omega)]

/-- C1: the spec's worked scenario. From a fresh state (`head_position = 0`),
after `add(100)`, `add(10)`, `add(50)`, the first dispatch returns the request
at 10 and moves the head to 10, the second returns the request at 50 and moves
the head to 50, the third returns the request at 100 and moves the head to
100, and the fourth dispatch returns nothing (C return value 0). -/
theorem C1_scenario_drain :
    sstf_add_request
      (sstf_add_request (sstf_add_request (sstf_data.mk [] 0) (Request.mk 0 100))
        (Request.mk 1 10)) (Request.mk 2 50) =
      sstf_data.mk [Request.mk 0 100, Request.mk 1 10, Request.mk 2 50] 0 ∧
    sstf_dispatch (sstf_data.mk [Request.mk 0 100, Request.mk 1 10, Request.mk 2 50] 0) =
      ⟨1, some (Request.mk 1 10), sstf_data.mk [Request.mk 0 100, Request.mk 2 50] 10⟩ ∧
    sstf_dispatch (sstf_data.mk [Request.mk 0 100, Request.mk 2 50] 10) =
      ⟨1, some (Request.mk 2 50), sstf_data.mk [Request.mk 0 100] 50⟩ ∧
    sstf_dispatch (sstf_data.mk [Request.mk 0 100] 50) =
      ⟨1, some (Request.mk 0 100), sstf_data.mk [] 100⟩ ∧
    sstf_dispatch (sstf_data.mk [] 100) = ⟨0, none, sstf_data.mk [] 100⟩ := by
  decide

/-- C7 counterexample: the computed distance is not, in general, the absolute
difference of the two positions as unsigned ordinals. At `target_location = 0`
and `head_position = 2 ^ 64 - 1` the true absolute difference is `2 ^ 64 - 1`,
but the code computes `abs()` of the wrapped 64-bit difference, which is 1. -/
theorem C7_counterexample :
    sstf_distance 0 (2 ^ 64 - 1) = 1 ∧
    abs_diff 0 (2 ^ 64 - 1) = 2 ^ 64 - 1 ∧
    sstf_distance 0 (2 ^ 64 - 1) ≠ abs_diff 0 (2 ^ 64 - 1) := by
  refine ⟨by decide, by decide, ?_⟩
  decide

/-- C7 amended: for 64-bit positions the computed distance equals the absolute
difference `|target_location − head_position|` whenever that difference is at
most `2 ^ 63`; in every case the computed distance is non-negative and at most
`2 ^ 63`, which is within the medium's `2 ^ 64`-sector address space. -/
theorem C7_distance_amended (p h : Nat) (hp : p < SECTOR_MOD) (hh : h < SECTOR_MOD) :
    sstf_distance p h ≤ 2 ^ 63 ∧
    (abs_diff p h ≤ 2 ^ 63 → sstf_distance p h = abs_diff p h) := by
  have hM := SECTOR_MOD_split
  refine ⟨sstf_distance_le p h, fun hle => ?_⟩
  rcases le_or_lt h p with hcase | hcase
  · have habs : abs_diff p h = p - h := by unfold abs_diff; omega
    rw [habs] at hle ⊢
    rw [sstf_distance, sector_sub_of_le p h hp hh hcase]
    unfold kernel_abs
    rw [Nat.mod_eq_of_lt (by omega)]
    split
    · rfl
    · omega
  · have habs : abs_diff p h = h - p := by unfold abs_diff; omega
    rw [habs] at hle ⊢
    rw [sstf_distance, sector_sub_of_lt p h hp hh hcase]
    unfold kernel_abs
    rw [Nat.mod_eq_of_lt (by omega)]
    split
    · omega
    · omega

/-- Witness for `C7_distance_amended` at `p = 100`, `h = 10`. -/
theorem C7_distance_amended_witness :
    sstf_distance 100 10 ≤ 2 ^ 63 ∧ sstf_distance 100 10 = abs_diff 100 10 :=
  ⟨(C7_distance_amended 100 10 (by norm_num [SECTOR_MOD]) (by norm_num [SECTOR_MOD])).1,
   (C7_distance_amended 100 10 (by norm_num [SECTOR_MOD]) (by norm_num [SECTOR_MOD])).2
     (by decide)⟩

/-- C10 counterexample (negation of the claimed hazard): no queue entry can
have computed distance `2 ^ 64 - 1`, because the kernel `abs()` of a 64-bit
difference is always at most `2 ^ 63`; the "minimum undefined" sentinel
`(sector_t)-1` is therefore never reachable as a real distance and the claimed
degenerate rescan state cannot occur for any queue or head position. -/
theorem C10_counterexample :
    (∀ p h : Nat, sstf_distance p h ≤ 2 ^ 63) ∧
    (∀ p h : Nat, sstf_distance p h ≠ SENTINEL) :=
  ⟨sstf_distance_le, sstf_distance_ne_sentinel⟩

/-- C10 amended: the scan does use `(sector_t)-1` as its "minimum undefined"
sentinel, but every computed distance is at most `2 ^ 63` and hence never
equal to the sentinel, so the sentinel state occurs only before the first
entry is examined and minimum-distance selection holds unconditionally: for
every state with a pending request, the scan returns an entry of minimum
computed distance. -/
theorem C10_sentinel_amended (nd : sstf_data) (rq : Request) (h : rq ∈ nd.queue) :
    sstf_distance rq.pos nd.head_position ≤ 2 ^ 63 ∧
    sstf_distance rq.pos nd.head_position ≠ SENTINEL ∧
    ∃ m, sstf_find_next_request nd = some m ∧
      ∀ x ∈ nd.queue, sstf_distance m.pos nd.head_position ≤
        sstf_distance x.pos nd.head_position := by
  refine ⟨sstf_distance_le _ _, sstf_distance_ne_sentinel _ _, ?_⟩
  have hne : nd.queue ≠ [] := by
    intro hq; rw [hq] at h; simp at h
  cases hfm : first_min nd.head_position nd.queue with
  | none => exact absurd ((first_min_eq_none_iff _ _).mp hfm) hne
  | some m =>
    exact ⟨m, by rw [find_eq_first_min, hfm], first_min_le _ _ _ hfm⟩

/-- Witness for `C10_sentinel_amended` on the queue `[(0, 7)]` with head 3. -/
theorem C10_sentinel_amended_witness :
    sstf_distance 7 3 ≤ 2 ^ 63 ∧
    sstf_distance 7 3 ≠ SENTINEL ∧
    ∃ m, sstf_find_next_request (sstf_data.mk [Request.mk 0 7] 3) = some m ∧
      ∀ x ∈ (sstf_data.mk [Request.mk 0 7] 3).queue,
        sstf_distance m.pos 3 ≤ sstf_distance x.pos 3 :=
  C10_sentinel_amended (sstf_data.mk [Request.mk 0 7] 3) (Request.mk 0 7) (by decide)

/-- C2: first-come-first-served among equidistant candidates. If the queue
splits as `l₁ ++ r :: l₂` where every entry before `r` is strictly farther
from the head and every entry after `r` is at least as far, then the scan (and
hence dispatch) selects exactly `r` — on equal minimum distance the
first-inserted entry wins. -/
theorem C2_tie_break_first (nd : sstf_data) (l₁ l₂ : List Request) (r : Request)
    (hq : nd.queue = l₁ ++ r :: l₂)
    (h₁ : ∀ x ∈ l₁,
      sstf_distance r.pos nd.head_position < sstf_distance x.pos nd.head_position)
    (h₂ : ∀ x ∈ l₂,
      sstf_distance r.pos nd.head_position ≤ sstf_distance x.pos nd.head_position) :
    sstf_find_next_request nd = some r ∧ (sstf_dispatch nd).dispatched = some r := by
  have hfind : sstf_find_next_request nd = some r := by
    rw [find_eq_first_min, hq]
    exact first_min_first _ _ _ _ h₁ h₂
  exact ⟨hfind, by rw [sstf_dispatch, hfind]⟩

/-- Witness for `C2_tie_break_first`: head 20, `add(10)` then `add(30)` — both
at distance 10, and dispatch returns the request at location 10. -/
theorem C2_tie_break_first_witness :
    sstf_find_next_request (sstf_data.mk [Request.mk 0 10, Request.mk 1 30] 20) =
      some (Request.mk 0 10) ∧
    (sstf_dispatch (sstf_data.mk [Request.mk 0 10, Request.mk 1 30] 20)).dispatched =
      some (Request.mk 0 10) :=
  C2_tie_break_first (sstf_data.mk [Request.mk 0 10, Request.mk 1 30] 20)
    [] [Request.mk 1 30] (Request.mk 0 10) rfl (by decide) (by decide)

/-- C3: on a successful find, dispatch removes exactly the found handle, sets
the head to its position, returns 1, and every other queued handle survives in
its original relative order (the queue splits as `l₁ ++ rq :: l₂` before and
is exactly `l₁ ++ l₂` after). -/
theorem C3_dispatch_removes_nearest (nd : sstf_data) (rq : Request)
    (hfind : sstf_find_next_request nd = some rq) (hnd : nd.queue.Nodup) :
    ∃ l₁ l₂, nd.queue = l₁ ++ rq :: l₂ ∧
      (sstf_dispatch nd).ret = 1 ∧
      (sstf_dispatch nd).dispatched = some rq ∧
      (sstf_dispatch nd).state.head_position = rq.pos ∧
      (sstf_dispatch nd).state.queue = l₁ ++ l₂ ∧
      rq ∉ (sstf_dispatch nd).state.queue := by
  have hmem : rq ∈ nd.queue := by
    apply first_min_mem nd.head_position nd.queue rq
    rw [← find_eq_first_min]
    exact hfind
  have hdisp : sstf_dispatch nd =
      ⟨1, some rq, ⟨nd.queue.erase rq, rq.pos⟩⟩ := by
    rw [sstf_dispatch, hfind]
  obtain ⟨l₁, l₂, _, hsplit, herase⟩ := List.exists_erase_eq hmem
  refine ⟨l₁, l₂, hsplit, ?_, ?_, ?_, ?_, ?_⟩
  · rw [hdisp]
  · rw [hdisp]
  · rw [hdisp]
  · rw [hdisp]; exact herase
  · rw [hdisp]
    exact hnd.not_mem_erase

/-- Witness for `C3_dispatch_removes_nearest` on the queue `[(0, 5), (1, 7)]`
with head 0, where the scan finds the request at 5. -/
theorem C3_dispatch_removes_nearest_witness :
    ∃ l₁ l₂,
      (sstf_data.mk [Request.mk 0 5, Request.mk 1 7] 0).queue =
        l₁ ++ Request.mk 0 5 :: l₂ ∧
      (sstf_dispatch (sstf_data.mk [Request.mk 0 5, Request.mk 1 7] 0)).ret = 1 ∧
      (sstf_dispatch (sstf_data.mk [Request.mk 0 5, Request.mk 1 7] 0)).dispatched =
        some (Request.mk 0 5) ∧
      (sstf_dispatch (sstf_data.mk [Request.mk 0 5, Request.mk 1 7] 0)).state.head_position =
        (Request.mk 0 5).pos ∧
      (sstf_dispatch (sstf_data.mk [Request.mk 0 5, Request.mk 1 7] 0)).state.queue =
        l₁ ++ l₂ ∧
      Request.mk 0 5 ∉
        (sstf_dispatch (sstf_data.mk [Request.mk 0 5, Request.mk 1 7] 0)).state.queue :=
  C3_dispatch_removes_nearest (sstf_data.mk [Request.mk 0 5, Request.mk 1 7] 0)
    (Request.mk 0 5) (by decide) (by decide)

/-- C4 counterexample: the per-dispatch distance sequence is not
non-decreasing. From a fresh state, after `add(10)` and `add(11)` the first
dispatch moves the head from 0 to 10 at distance 10, and the second dispatch
serves the request at 11 at distance 1 — the distance sequence 10, 1
decreases. -/
theorem C4_counterexample :
    let s := sstf_add_request
      (sstf_add_request (sstf_data.mk [] 0) (Request.mk 0 10)) (Request.mk 1 11)
    let d1 := sstf_dispatch s
    let d2 := sstf_dispatch d1.state
    d1.dispatched = some (Request.mk 0 10) ∧
    sstf_distance 10 s.head_position = 10 ∧
    d2.dispatched = some (Request.mk 1 11) ∧
    sstf_distance 11 d1.state.head_position = 1 ∧
    ¬ sstf_distance 10 s.head_position ≤ sstf_distance 11 d1.state.head_position := by
  decide

/-- C4 amended: per-dispatch distances need not be monotone across dispatches,
but every successful dispatch serves a pending request of minimum computed
distance from the head position at the time of that dispatch, and
`head_position` after the dispatch equals the dispatched request's location. -/
theorem C4_greedy_step_amended (nd : sstf_data) (rq : Request)
    (h : (sstf_dispatch nd).dispatched = some rq) :
    (sstf_dispatch nd).state.head_position = rq.pos ∧
    rq ∈ nd.queue ∧
    ∀ x ∈ nd.queue,
      sstf_distance rq.pos nd.head_position ≤ sstf_distance x.pos nd.head_position := by
  cases hfind : sstf_find_next_request nd with
  | none =>
    rw [sstf_dispatch, hfind] at h
    exact absurd h (by simp)
  | some r =>
    have hdisp : sstf_dispatch nd =
        ⟨1, some r, ⟨nd.queue.erase r, r.pos⟩⟩ := by
      rw [sstf_dispatch, hfind]
    rw [hdisp] at h
    have hr : r = rq := by simpa using h
    subst hr
    rw [find_eq_first_min] at hfind
    exact ⟨by rw [hdisp], first_min_mem _ _ _ hfind, first_min_le _ _ _ hfind⟩

/-- Witness for `C4_greedy_step_amended` on the queue `[(0, 10), (1, 11)]`
with head 0: the dispatched request at 10 is nearest, and the head becomes 10. -/
theorem C4_greedy_step_amended_witness :
    (sstf_dispatch (sstf_data.mk [Request.mk 0 10, Request.mk 1 11] 0)).state.head_position =
      (Request.mk 0 10).pos ∧
    Request.mk 0 10 ∈ (sstf_data.mk [Request.mk 0 10, Request.mk 1 11] 0).queue ∧
    sstf_distance 10 0 ≤ sstf_distance 11 0 :=
  ⟨(C4_greedy_step_amended (sstf_data.mk [Request.mk 0 10, Request.mk 1 11] 0)
      (Request.mk 0 10) (by decide)).1,
   (C4_greedy_step_amended (sstf_data.mk [Request.mk 0 10, Request.mk 1 11] 0)
      (Request.mk 0 10) (by decide)).2.1,
   (C4_greedy_step_amended (sstf_data.mk [Request.mk 0 10, Request.mk 1 11] 0)
      (Request.mk 0 10) (by decide)).2.2 (Request.mk 1 11) (by decide)⟩

/-- Single step of repeatedly calling dispatch: the state after one call. -/
def dispatchStep (nd : sstf_data) : sstf_data := (sstf_dispatch nd).state

/-- C5: dispatch on an empty queue returns 0 (nothing dispatched, not an
error), hands no request to the sink, leaves the state — in particular
`head_position` — unchanged, and stays a no-op under arbitrarily many
repeated calls. -/
theorem C5_idle_dispatch (nd : sstf_data) (h : nd.queue = []) :
    (sstf_dispatch nd).ret = 0 ∧
    (sstf_dispatch nd).dispatched = none ∧
    (sstf_dispatch nd).state = nd ∧
    ∀ k : Nat, dispatchStep^[k] nd = nd := by
  have hfind : sstf_find_next_request nd = none := by
    rw [find_eq_first_min, h]
    rfl
  have hd : sstf_dispatch nd = ⟨0, none, nd⟩ := by rw [sstf_dispatch, hfind]
  refine ⟨by rw [hd], by rw [hd], by rw [hd], fun k => ?_⟩
  apply Function.iterate_fixed
  show (sstf_dispatch nd).state = nd
  rw [hd]

/-- Witness for `C5_idle_dispatch` at the empty state with head 42, iterated
three times. -/
theorem C5_idle_dispatch_witness :
    (sstf_dispatch (sstf_data.mk [] 42)).ret = 0 ∧
    (sstf_dispatch (sstf_data.mk [] 42)).dispatched = none ∧
    (sstf_dispatch (sstf_data.mk [] 42)).state = sstf_data.mk [] 42 ∧
    dispatchStep^[3] (sstf_data.mk [] 42) = sstf_data.mk [] 42 :=
  ⟨(C5_idle_dispatch (sstf_data.mk [] 42) rfl).1,
   (C5_idle_dispatch (sstf_data.mk [] 42) rfl).2.1,
   (C5_idle_dispatch (sstf_data.mk [] 42) rfl).2.2.1,
   (C5_idle_dispatch (sstf_data.mk [] 42) rfl).2.2.2 3⟩

/-- C6: when `absorbed` is a queue member, `sstf_merged_requests` removes
`absorbed` and only `absorbed`: the length drops by exactly one, the queue
splits as `l₁ ++ absorbed :: l₂` before and is exactly `l₁ ++ l₂` after (so
the surviving handle and all others keep their relative order), and
`head_position` is untouched. -/
theorem C6_merge_removes_absorbed (nd : sstf_data) (surviving absorbed : Request)
    (hmem : absorbed ∈ nd.queue) (hnd : nd.queue.Nodup) :
    ∃ l₁ l₂, nd.queue = l₁ ++ absorbed :: l₂ ∧
      (sstf_merged_requests nd surviving absorbed).queue = l₁ ++ l₂ ∧
      (sstf_merged_requests nd surviving absorbed).queue.length + 1 =
        nd.queue.length ∧
      absorbed ∉ (sstf_merged_requests nd surviving absorbed).queue ∧
      (sstf_merged_requests nd surviving absorbed).head_position =
        nd.head_position := by
  obtain ⟨l₁, l₂, _, hsplit, herase⟩ := List.exists_erase_eq hmem
  refine ⟨l₁, l₂, hsplit, herase, ?_, ?_, rfl⟩
  · show (nd.queue.erase absorbed).length + 1 = nd.queue.length
    rw [herase, hsplit]
    simp only [List.length_append, List.length_cons]
    omega
  · exact hnd.not_mem_erase

/-- Witness for `C6_merge_removes_absorbed`: absorbing `(1, 2)` out of the
queue `[(0, 1), (1, 2)]` with head 5. -/
theorem C6_merge_removes_absorbed_witness :
    ∃ l₁ l₂,
      (sstf_data.mk [Request.mk 0 1, Request.mk 1 2] 5).queue =
        l₁ ++ Request.mk 1 2 :: l₂ ∧
      (sstf_merged_requests (sstf_data.mk [Request.mk 0 1, Request.mk 1 2] 5)
        (Request.mk 0 1) (Request.mk 1 2)).queue = l₁ ++ l₂ ∧
      (sstf_merged_requests (sstf_data.mk [Request.mk 0 1, Request.mk 1 2] 5)
        (Request.mk 0 1) (Request.mk 1 2)).queue.length + 1 =
        (sstf_data.mk [Request.mk 0 1, Request.mk 1 2] 5).queue.length ∧
      Request.mk 1 2 ∉
        (sstf_merged_requests (sstf_data.mk [Request.mk 0 1, Request.mk 1 2] 5)
          (Request.mk 0 1) (Request.mk 1 2)).queue ∧
      (sstf_merged_requests (sstf_data.mk [Request.mk 0 1, Request.mk 1 2] 5)
        (Request.mk 0 1) (Request.mk 1 2)).head_position =
        (sstf_data.mk [Request.mk 0 1, Request.mk 1 2] 5).head_position :=
  C6_merge_removes_absorbed (sstf_data.mk [Request.mk 0 1, Request.mk 1 2] 5)
    (Request.mk 0 1) (Request.mk 1 2) (by decide) (by decide)

/-- C8: teardown on a non-empty queue hits the fatal `BUG_ON` assertion
(modelled as `none`) and never silently succeeds; on an empty queue it passes
the assertion and releases the state (`some ()`). -/
theorem C8_teardown_guard (nd : sstf_data) :
    (nd.queue ≠ [] → sstf_exit_queue nd = none) ∧
    (nd.queue = [] → sstf_exit_queue nd = some ()) := by
  constructor
  · intro h; rw [sstf_exit_queue, if_neg h]
  · intro h; rw [sstf_exit_queue, if_pos h]

/-- Witness for `C8_teardown_guard`: a one-element queue faults, the empty
queue tears down cleanly. -/
theorem C8_teardown_guard_witness :
    sstf_exit_queue (sstf_data.mk [Request.mk 0 1] 0) = none ∧
    sstf_exit_queue (sstf_data.mk [] 0) = some () :=
  ⟨(C8_teardown_guard (sstf_data.mk [Request.mk 0 1] 0)).1 (by decide),
   (C8_teardown_guard (sstf_data.mk [] 0)).2 rfl⟩

/-- C9: init either yields a fresh state with an empty queue and
`head_position = 0`, or fails with `-ENOMEM` surfaced to the caller; no
partially-initialized state is ever produced. -/
theorem C9_init_alloc (eq_alloc_ok nd_alloc_ok : Bool) :
    sstf_init_queue eq_alloc_ok nd_alloc_ok = Except.ok (sstf_data.mk [] 0) ∨
    sstf_init_queue eq_alloc_ok nd_alloc_ok = Except.error (-ENOMEM) := by
  cases eq_alloc_ok
  · exact Or.inr rfl
  · cases nd_alloc_ok
    · exact Or.inr rfl
    · exact Or.inl rfl
